import Mathlib

/-!
# Verification of the astron-browser agent-process supervisor

Shallow embedding of the stdout/stderr decoding, supervisor lifecycle and
fan-out broadcast logic of `src/hooks/use-daemon.ts` and `web/server.ts`.
JavaScript strings are modelled as lists of characters (`Str`); the
relevant `String.prototype` operations (`trim`, `split`, `includes`,
`startsWith`, `replace` with a string or first-match pattern,
case-insensitive matching) are defined below with JS semantics.
-/

set_option maxRecDepth 4096

namespace Astron

abbrev Str := List Char

/-- JS whitespace (the characters that occur in this code base's streams). -/
def isWS (c : Char) : Bool := c == ' ' || c == '\t' || c == '\n' || c == '\r'

/-- `String.prototype.trim`. -/
def trim (s : Str) : Str :=
  ((s.dropWhile isWS).reverse.dropWhile isWS).reverse

/-- `String.prototype.includes` (substring test, used for the readiness
sentinel and the error-keyword heuristic). -/
def containsSub (sub : Str) : Str → Bool
  | [] => sub.isEmpty
  | c :: rest => sub.isPrefixOf (c :: rest) || containsSub sub rest

/-- Worker for `String.prototype.split` with a non-empty string separator:
left-to-right scan; at each position where the separator is a prefix the
current field is emitted and the separator consumed.  The `fuel` argument
makes the recursion structural (it only ever needs `s.length` steps since
every step consumes at least one character). -/
def splitGo (sep : Str) : Nat → Str → Str → List Str
  | 0, s, cur => [cur.reverse ++ s]
  | _ + 1, [], cur => [cur.reverse]
  | fuel + 1, c :: rest, cur =>
    if sep.isPrefixOf (c :: rest) then
      cur.reverse :: splitGo sep fuel (rest.drop (sep.length - 1)) []
    else
      splitGo sep fuel rest (c :: cur)

/-- `s.split(sep)` for a non-empty literal separator (JS semantics:
`"".split(x) = [""]`, a trailing separator yields a trailing `""`). -/
def splitStr (sep s : Str) : List Str := splitGo sep s.length s []

/-- Number of non-overlapping, left-to-right occurrences of `sep` in the
remaining input, with the same fuel discipline as `splitGo`. -/
def countOccGo (sep : Str) : Nat → Str → Nat
  | 0, _ => 0
  | _ + 1, [] => 0
  | fuel + 1, c :: rest =>
    if sep.isPrefixOf (c :: rest) then
      1 + countOccGo sep fuel (rest.drop (sep.length - 1))
    else
      countOccGo sep fuel rest

/-- Number of non-overlapping occurrences of `sep` in `s`. -/
def countOcc (sep s : Str) : Nat := countOccGo sep s.length s

/-- `s.replace(pat, "")` for a literal string pattern: remove the first
occurrence only (JS `String.prototype.replace` with a string argument). -/
def replaceFirst (pat : Str) : Str → Str
  | [] => []
  | c :: rest =>
    if pat.isPrefixOf (c :: rest) then rest.drop (pat.length - 1)
    else c :: replaceFirst pat rest

theorem splitGo_length (sep : Str) :
    ∀ fuel s cur, (splitGo sep fuel s cur).length = countOccGo sep fuel s + 1 := by
  intro fuel
  induction fuel with
  | zero => intro s cur; simp [splitGo, countOccGo]
  | succ n ih =>
    intro s cur
    cases s with
    | nil => simp [splitGo, countOccGo]
    | cons c rest =>
      simp only [splitGo, countOccGo]
      split
      · simp [ih]
        omega
      · exact ih rest (c :: cur)

theorem splitStr_length (sep s : Str) :
    (splitStr sep s).length = countOcc sep s + 1 :=
  splitGo_length sep s.length s []

theorem splitStr_ne_nil (sep s : Str) : splitStr sep s ≠ [] := by
  intro h
  have := splitStr_length sep s
  rw [h] at this
  simp at this

/-! ## Protocol events and literals (hook variant, `use-daemon.ts`)

`addMessage(type, text)` calls are modelled as `Ev` values; the four
`type` strings used by the hook become the four constructors. -/

inductive Ev where
  | agent (t : Str)
  | system (t : Str)
  | error (t : Str)
  | done (t : Str)
deriving DecidableEq

def isDone : Ev → Bool
  | .agent _ => false
  | .system _ => false
  | .error _ => false
  | .done _ => true

def countDone (evs : List Ev) : Nat := (evs.filter isDone).length

/-- The in-band completion marker `"__DONE__"`. -/
def marker : Str := "__DONE__".data

/-- The readiness sentinel `"Browser started"`. -/
def sentinel : Str := "Browser started".data

def errorTag : Str := "[error]".data

def daemonTag : Str := "[daemon]".data

def systemTag : Str := "[system]".data

def doneText : Str := "Task completed".data

def notReadyText : Str := "Daemon is not ready yet. Please wait...".data

/-- `trimmed.replace(/\[(daemon|system)\]/, "")`: remove the first
occurrence of either tag, scanning left to right. -/
def replaceTagDS : Str → Str
  | [] => []
  | c :: rest =>
    if daemonTag.isPrefixOf (c :: rest) then rest.drop (daemonTag.length - 1)
    else if systemTag.isPrefixOf (c :: rest) then rest.drop (systemTag.length - 1)
    else c :: replaceTagDS rest

/-- The mutable refs read/written by the hook's stdout loop:
`isReadyRef.current` and `isTaskRunningRef.current`. -/
structure DecState where
  isReady : Bool
  isTaskRunning : Bool
deriving DecidableEq

/-- Body of the hook's per-part loop in the stdout reader
(`use-daemon.ts` lines 91-111), excluding the `__DONE__` bookkeeping:
readiness latch first, then tag-prefix classification of the whole
trimmed part. -/
def processSegment (st : DecState) (text : Str) : DecState × List Ev :=
  let trimmed := trim text
  if !st.isReady && containsSub sentinel trimmed then
    ({ st with isReady := true }, [])
  else if trimmed = [] then
    (st, [])
  else if errorTag.isPrefixOf trimmed then
    (st, [Ev.error (trim (replaceFirst errorTag trimmed))])
  else if daemonTag.isPrefixOf trimmed || systemTag.isPrefixOf trimmed then
    (st, [Ev.system (trim (replaceTagDS trimmed))])
  else
    (st, [Ev.agent trimmed])

/-- The hook's `for (let i = 0; i < parts.length; i++)` loop over the
`chunk.split("__DONE__")` parts: classify each part, and after every part
except the last clear `isTaskRunningRef` and emit a `done` message. -/
def processParts (st : DecState) : List Str → List Ev × DecState
  | [] => ([], st)
  | [p] =>
    let r := processSegment st p
    (r.2, r.1)
  | p :: q :: rest =>
    let r := processSegment st p
    let st2 : DecState := { r.1 with isTaskRunning := false }
    let rr := processParts st2 (q :: rest)
    (r.2 ++ [Ev.done doneText] ++ rr.1, rr.2)

/-- One iteration of the hook's stdout reader on a decoded chunk. -/
def decodeChunk (st : DecState) (chunk : Str) : List Ev × DecState :=
  processParts st (splitStr marker chunk)

/-- The whole stdout reader over a sequence of chunks (the code creates a
fresh `TextDecoder.decode(value)` result per read and decodes each chunk
in isolation — no cross-chunk buffering). -/
def decodeChunks (st : DecState) : List Str → List Ev × DecState
  | [] => ([], st)
  | c :: cs =>
    let r := decodeChunk st c
    let rr := decodeChunks r.2 cs
    (r.1 ++ rr.1, rr.2)

/-! ## Structural lemmas about the stdout decoder -/

theorem countDone_append (a b : List Ev) :
    countDone (a ++ b) = countDone a + countDone b := by
  simp [countDone, List.filter_append]

theorem countDone_processSegment (st : DecState) (p : Str) :
    countDone (processSegment st p).2 = 0 := by
  simp only [processSegment]
  split_ifs <;> simp [countDone, isDone]

theorem processSegment_isReady (r t : Bool) (p : Str) :
    (processSegment ⟨r, t⟩ p).1 = ⟨r || containsSub sentinel (trim p), t⟩ := by
  cases r <;> simp only [processSegment] <;> split_ifs <;> simp_all

theorem processSegment_isTaskRunning (st : DecState) (p : Str) :
    (processSegment st p).1.isTaskRunning = st.isTaskRunning := by
  simp only [processSegment]
  split_ifs <;> rfl

theorem processSegment_events (r t t' : Bool) (p : Str) :
    (processSegment ⟨r, t⟩ p).2 = (processSegment ⟨r, t'⟩ p).2 := by
  simp only [processSegment]
  split_ifs <;> rfl

/-- The per-segment event lists, threading only the readiness flag (the
classification never reads the task flag). -/
def segLists (r : Bool) : List Str → List (List Ev)
  | [] => []
  | p :: rest =>
    (processSegment ⟨r, false⟩ p).2 ::
      segLists (r || containsSub sentinel (trim p)) rest

/-- Interleave segment event lists with a single `done` event between
consecutive segments: segment, TaskDone, segment, TaskDone, ... -/
def interDone : List (List Ev) → List Ev
  | [] => []
  | [l] => l
  | l :: l' :: ls => l ++ [Ev.done doneText] ++ interDone (l' :: ls)

theorem processParts_shape (parts : List Str) :
    ∀ st : DecState, parts ≠ [] →
      (processParts st parts).1 = interDone (segLists st.isReady parts) := by
  induction parts with
  | nil => intro st h; exact absurd rfl h
  | cons p rest ih =>
    intro st _
    rcases st with ⟨r, t⟩
    cases rest with
    | nil =>
      simp [processParts, segLists, interDone]
      exact processSegment_events r t false p
    | cons q rest2 =>
      simp only [processParts, segLists, interDone]
      rw [processSegment_events r t false p]
      have hst : ({ (processSegment ⟨r, t⟩ p).1 with isTaskRunning := false }
          : DecState) = ⟨r || containsSub sentinel (trim p), false⟩ := by
        rw [processSegment_isReady]
      rw [hst, ih ⟨r || containsSub sentinel (trim p), false⟩ (by simp)]
      rfl

theorem countDone_processParts (parts : List Str) :
    ∀ st : DecState, parts ≠ [] →
      countDone (processParts st parts).1 = parts.length - 1 := by
  induction parts with
  | nil => intro st h; exact absurd rfl h
  | cons p rest ih =>
    intro st _
    cases rest with
    | nil => simp [processParts, countDone_processSegment]
    | cons q rest2 =>
      simp only [processParts]
      rw [countDone_append, countDone_append, countDone_processSegment,
        ih _ (by simp)]
      simp [countDone, isDone]
      omega

theorem segLists_countDone (parts : List Str) :
    ∀ r : Bool, ((segLists r parts).all fun l => countDone l == 0) = true := by
  induction parts with
  | nil => intro r; rfl
  | cons p rest ih =>
    intro r
    simp only [segLists, List.all_cons, Bool.and_eq_true]
    exact ⟨by simp [countDone_processSegment], ih _⟩

theorem processParts_isReady (parts : List Str) :
    ∀ st : DecState, (processParts st parts).2.isReady
      = (st.isReady || parts.any fun p => containsSub sentinel (trim p)) := by
  induction parts with
  | nil => intro st; simp [processParts]
  | cons p rest ih =>
    intro st
    rcases st with ⟨r, t⟩
    cases rest with
    | nil =>
      simp [processParts, processSegment_isReady]
    | cons q rest2 =>
      simp only [processParts]
      rw [ih]
      have hst : ({ (processSegment ⟨r, t⟩ p).1 with isTaskRunning := false }
          : DecState) = ⟨r || containsSub sentinel (trim p), false⟩ := by
        rw [processSegment_isReady]
      rw [hst]
      simp [Bool.or_assoc]

theorem countDone_decodeChunk (st : DecState) (s : Str) :
    countDone (decodeChunk st s).1 = countOcc marker s := by
  unfold decodeChunk
  rw [countDone_processParts _ _ (splitStr_ne_nil marker s), splitStr_length]
  omega

theorem countDone_decodeChunks (cs : List Str) :
    ∀ st : DecState, countDone (decodeChunks st cs).1
      = (cs.map fun c => countOcc marker c).sum := by
  induction cs with
  | nil => intro st; rfl
  | cons c rest ih =>
    intro st
    simp only [decodeChunks, List.map_cons, List.sum_cons]
    rw [countDone_append, countDone_decodeChunk, ih]

theorem decodeChunk_isReady (st : DecState) (s : Str) :
    (decodeChunk st s).2.isReady
      = (st.isReady || (splitStr marker s).any fun p => containsSub sentinel (trim p)) :=
  processParts_isReady _ st

theorem decodeChunks_mono (cs : List Str) :
    ∀ st : DecState, st.isReady = true → (decodeChunks st cs).2.isReady = true := by
  induction cs with
  | nil => intro st h; exact h
  | cons c rest ih =>
    intro st h
    simp only [decodeChunks]
    exact ih _ (by rw [decodeChunk_isReady, h, Bool.true_or])

/-! ## Stderr path (`constants.ts` and the hook's stderr reader) -/

/-- ASCII-case-insensitive view of a string (JS `i` regex flag on the
ASCII keywords used here). -/
def lowerStr (s : Str) : Str := s.map Char.toLower

/-- `isStderrNoise` from `constants.ts`: the five `STDERR_NOISE_PATTERNS`
rules, any-match.  `/^\s*INFO\s*$/` on a string is "nothing but optional
whitespace around the literal word"; `/^\s*\[chromium\]/i` is "starts,
after optional whitespace, with the tag, case-insensitively". -/
def isStderrNoise (line : Str) : Bool :=
  trim line == "INFO".data ||
  trim line == "DEBUG".data ||
  trim line == "WARNING".data ||
  containsSub "DevTools listening on ws:".data line ||
  ("[chromium]".data).isPrefixOf (lowerStr (line.dropWhile isWS))

/-- `/error|exception|traceback/i.test(trimmed)`. -/
def isErrorLine (s : Str) : Bool :=
  containsSub "error".data (lowerStr s) ||
  containsSub "exception".data (lowerStr s) ||
  containsSub "traceback".data (lowerStr s)

/-- Body of the hook's stderr per-line loop (`use-daemon.ts` lines
132-137). -/
def processStderrLine (line : Str) : List Ev :=
  let trimmed := trim line
  if trimmed = [] then []
  else if isStderrNoise trimmed then []
  else if isErrorLine trimmed then [Ev.error trimmed]
  else [Ev.agent trimmed]

/-- One stderr chunk: split on `"\n"`, classify each line. -/
def processStderrChunk (chunk : Str) : List Ev :=
  ((splitStr ['\n'] chunk).map processStderrLine).flatten

theorem countDone_processStderrLine (l : Str) :
    countDone (processStderrLine l) = 0 := by
  simp only [processStderrLine]
  split_ifs <;> simp [countDone, isDone]

theorem countDone_join_stderr (ls : List Str) :
    countDone ((ls.map processStderrLine).flatten) = 0 := by
  induction ls with
  | nil => rfl
  | cons l rest ih =>
    simp only [List.map_cons, List.flatten_cons]
    rw [countDone_append, countDone_processStderrLine, ih]

theorem countDone_processStderrChunk (c : Str) :
    countDone (processStderrChunk c) = 0 :=
  countDone_join_stderr _

/-! ## Hook lifecycle (`use-daemon.ts`: `stopDaemon`, `startDaemon`,
`sendTask`) -/

/-- Spawn configuration passed to `Bun.spawn`. -/
structure SpawnSpec where
  cmd : List Str
  stdinPipe : Bool
  stdoutPipe : Bool
  stderrPipe : Bool
deriving DecidableEq

/-- Externally observable actions of the lifecycle operations, in
program order. -/
inductive Act where
  | closeStdin
  | clearRef
  | syncEnv
  | spawn (s : SpawnSpec)
deriving DecidableEq

/-- The hook's mutable supervisor state: `daemonRef.current != null`,
`isReadyRef.current`, `isTaskRunningRef.current`. -/
structure HookState where
  hasDaemon : Bool
  isReady : Bool
  isTaskRunning : Bool
deriving DecidableEq

/-- `stopDaemon`: if a daemon handle exists, end its stdin and clear the
reference; unconditionally reset readiness. -/
def stopDaemon (st : HookState) : HookState × List Act :=
  (⟨false, false, st.isTaskRunning⟩,
   if st.hasDaemon then [Act.closeStdin, Act.clearRef] else [])

/-- The `Bun.spawn` call of the hook's `startDaemon`:
`["uv","run","python","-u", <pythonDir>/daemon.py, cfg.provider,
cfg.model]` with all three stdio piped. -/
def hookSpawn (provider model : Str) : SpawnSpec :=
  { cmd := ["uv".data, "run".data, "python".data, "-u".data,
            "python/daemon.py".data, provider, model],
    stdinPipe := true, stdoutPipe := true, stderrPipe := true }

/-- `startDaemon(cfg)`: `stopDaemon()` first, then `syncEnvFile(cfg)`,
then spawn; the new handle is stored. -/
def startDaemon (st : HookState) (provider model : Str) : HookState × List Act :=
  let s := stopDaemon st
  ({ s.1 with hasDaemon := true },
   s.2 ++ [Act.syncEnv, Act.spawn (hookSpawn provider model)])

/-- `sendTask(taskPrompt)`: reject (one error message, no writes, no
state change) unless a daemon handle exists and readiness is latched;
otherwise set the task flag and write `taskPrompt + "\n"` to stdin.
Result: (new state, emitted messages, stdin writes). -/
def sendTask (st : HookState) (taskPrompt : Str) :
    HookState × List Ev × List Str :=
  if !st.hasDaemon || !st.isReady then
    (st, [Ev.error notReadyText], [])
  else
    (⟨st.hasDaemon, st.isReady, true⟩, [], [taskPrompt ++ ['\n']])

/-! ## Networked variant (`web/server.ts`) -/

/-- Outbound envelope of `broadcast({...})`: the `type` discriminator and
its payload. -/
inductive Msg where
  | status (s : Str)
  | output (t : Str)
  | error (t : Str)
  | done
deriving DecidableEq

def readyStr : Str := "ready".data

def startingStr : Str := "starting".data

def disconnectedStr : Str := "disconnected".data

def runningStr : Str := "running".data

/-- `WebSocket.readyState` values. -/
inductive ReadyState where
  | connecting
  | rsOpen
  | closing
  | closed
deriving DecidableEq, BEq

/-- One WebSocket client as the broadcaster sees it: an identity and its
current `readyState`.  `daemon.clients` is a `Set`, which in JS iterates
in insertion order, so a `List` models it faithfully. -/
structure Client where
  id : Nat
  readyState : ReadyState
deriving DecidableEq

/-- `DaemonState` of `server.ts`: `process`, `isReady`, `clients`. -/
structure ServerState where
  hasProcess : Bool
  isReady : Bool
  clients : List Client
deriving DecidableEq

/-- `broadcast(msg)` (`server.ts` lines 165-172): iterate the client set
in order and send only to clients whose `readyState` is `OPEN`; the set
itself is not modified.  Result: (state, deliveries as (client id, msg)
pairs in delivery order). -/
def broadcast (st : ServerState) (msg : Msg) :
    ServerState × List (Nat × Msg) :=
  (st,
   (st.clients.filter fun c => c.readyState == ReadyState.rsOpen).map
     fun c => (c.id, msg))

/-- The `websocket.close` handler: `daemon.clients.delete(ws)`. -/
def wsClose (st : ServerState) (cid : Nat) : ServerState :=
  { st with clients := st.clients.filter fun c => c.id != cid }

/-- Server `sendTask(prompt)` (`server.ts` lines 174-187).
Result: (state, broadcast messages, stdin writes). -/
def sendTaskServer (st : ServerState) (prompt : Str) :
    ServerState × List Msg × List Str :=
  if !st.hasProcess || !st.isReady then
    (st, [Msg.error notReadyText], [])
  else
    (st,
     [Msg.status runningStr,
      Msg.output ("\n> Task: ".data ++ prompt ++ "\n\n".data)],
     [prompt ++ ['\n']])

/-- The server's `Bun.spawn` call: no provider/model arguments at all. -/
def serverSpawn : SpawnSpec :=
  { cmd := ["uv".data, "run".data, "python".data, "-u".data,
            "python/daemon.py".data],
    stdinPipe := true, stdoutPipe := true, stderrPipe := true }

/-- Server `startDaemon()` (`server.ts` lines 95-111): early-return when
a process already exists (no teardown, no spawn); otherwise spawn. -/
def startDaemonServer (st : ServerState) : ServerState × List Act :=
  if st.hasProcess then (st, [])
  else ({ st with hasProcess := true }, [Act.spawn serverSpawn])

/-- Body of the server's stdout per-part loop (`server.ts` lines
126-135): the readiness check is on the untrimmed part, and the part is
broadcast as `output` whether or not it triggered the readiness latch. -/
def serverSegment (ready : Bool) (text : Str) : Bool × List Msg :=
  if !ready && containsSub sentinel text then
    (true,
     Msg.status readyStr :: (if trim text = [] then [] else [Msg.output text]))
  else
    (ready, if trim text = [] then [] else [Msg.output text])

/-- The server's loop over `chunk.split("__DONE__")`. -/
def serverParts (ready : Bool) : List Str → List Msg × Bool
  | [] => ([], ready)
  | [p] =>
    let r := serverSegment ready p
    (r.2, r.1)
  | p :: q :: rest =>
    let r := serverSegment ready p
    let rr := serverParts r.1 (q :: rest)
    (r.2 ++ [Msg.done] ++ rr.1, rr.2)

/-- One stdout chunk through the server's reader. -/
def serverChunk (ready : Bool) (s : Str) : List Msg × Bool :=
  serverParts ready (splitStr marker s)

def isDoneMsg : Msg → Bool
  | .status _ => false
  | .output _ => false
  | .error _ => false
  | .done => true

def countDoneMsg (ms : List Msg) : Nat := (ms.filter isDoneMsg).length

/-- The `/health` endpoint's `daemon` field: only two possible values. -/
def healthDaemonField (st : ServerState) : Str :=
  if st.isReady then readyStr else startingStr

/-- The `websocket.open` handler's `status` field: three possible
values. -/
def wsOpenStatus (st : ServerState) : Str :=
  if st.isReady then readyStr
  else if st.hasProcess then startingStr
  else disconnectedStr

/-! ### Server-side structural lemmas -/

theorem countDoneMsg_append (a b : List Msg) :
    countDoneMsg (a ++ b) = countDoneMsg a + countDoneMsg b := by
  simp [countDoneMsg, List.filter_append]

theorem countDoneMsg_serverSegment (r : Bool) (p : Str) :
    countDoneMsg (serverSegment r p).2 = 0 := by
  simp only [serverSegment]
  split_ifs <;> simp [countDoneMsg, isDoneMsg]

theorem countDoneMsg_serverParts (parts : List Str) :
    ∀ r : Bool, parts ≠ [] →
      countDoneMsg (serverParts r parts).1 = parts.length - 1 := by
  induction parts with
  | nil => intro r h; exact absurd rfl h
  | cons p rest ih =>
    intro r _
    cases rest with
    | nil => simp [serverParts, countDoneMsg_serverSegment]
    | cons q rest2 =>
      simp only [serverParts]
      rw [countDoneMsg_append, countDoneMsg_append,
        countDoneMsg_serverSegment, ih _ (by simp)]
      simp [countDoneMsg, isDoneMsg]
      omega

theorem countDoneMsg_serverChunk (r : Bool) (s : Str) :
    countDoneMsg (serverChunk r s).1 = countOcc marker s := by
  unfold serverChunk
  rw [countDoneMsg_serverParts _ _ (splitStr_ne_nil marker s), splitStr_length]
  omega

theorem serverSegment_fst (r : Bool) (p : Str) :
    (serverSegment r p).1 = (r || containsSub sentinel p) := by
  cases r <;> simp only [serverSegment] <;> split_ifs <;> simp_all

theorem recipients_all_ne (cs : List Client) (cid : Nat) (m : Msg) :
    ((((cs.filter fun c => c.id != cid).filter
        fun c => c.readyState == ReadyState.rsOpen).map
          fun c => ((c.id, m) : Nat × Msg)).all
      fun d => d.1 != cid) = true := by
  simp only [List.all_eq_true, List.mem_map, List.mem_filter]
  rintro d ⟨c, ⟨⟨_, hne⟩, _⟩, rfl⟩
  exact hne

/-! ## Claims -/

/-- C1 counterexample: with a daemon handle present, readiness latched and
a task already in flight (the `Running` situation, i.e. a second send
before any TaskDone), `sendTask` emits no `ErrorMessage` at all and the
prompt plus newline IS written to the child's stdin — including on the
literal scenario of a second `send("x")` issued right after a first one. -/
theorem sendTask_running_refutes :
    (sendTask ⟨true, true, true⟩ "x".data).2.1 = []
  ∧ (sendTask ⟨true, true, true⟩ "x".data).2.2 = ["x\n".data]
  ∧ (sendTask (sendTask ⟨true, true, false⟩ "x".data).1 "x".data).2.1 = []
  ∧ (sendTask (sendTask ⟨true, true, false⟩ "x".data).1 "x".data).2.2 ≠ [] := by
  refine ⟨rfl, by decide, rfl, by decide⟩

/-- C1 (amended): `sendTask` rejects — leaving state and the pending-task
flag unchanged, emitting exactly one `ErrorMessage` and writing nothing to
stdin — exactly when the daemon handle is absent or the readiness flag is
false; when a daemon exists and readiness is latched (even while a task is
already running, since the guard never consults the pending-task flag) the
prompt plus a newline is written to stdin and the task flag is set, with
no error event.  The server variant has the same guard. -/
theorem sendTask_guard (st : HookState) (sst : ServerState) (prompt : Str) :
    ((st.hasDaemon = false ∨ st.isReady = false) →
        sendTask st prompt = (st, [Ev.error notReadyText], []))
  ∧ (st.hasDaemon = true → st.isReady = true →
        sendTask st prompt = (⟨true, true, true⟩, [], [prompt ++ ['\n']]))
  ∧ ((sst.hasProcess = false ∨ sst.isReady = false) →
        sendTaskServer sst prompt = (sst, [Msg.error notReadyText], [])) := by
  rcases st with ⟨d, rdy, tr⟩
  rcases sst with ⟨sp, srdy, scl⟩
  refine ⟨?_, ?_, ?_⟩
  · rintro (h | h) <;> simp_all [sendTask]
  · intro h1 h2
    simp_all [sendTask]
  · rintro (h | h) <;> simp_all [sendTaskServer]

/-- C1 witness: a send while `Starting` (daemon present, not ready) is
rejected with a single error event and no stdin write. -/
theorem sendTask_guard_witness :
    sendTask ⟨true, false, false⟩ "x".data
      = (⟨true, false, false⟩, [Ev.error notReadyText], []) :=
  (sendTask_guard ⟨true, false, false⟩ ⟨false, false, []⟩ "x".data).1
    (Or.inr rfl)

/-- C2 (code bug): the stdout decoder is not chunk-boundary invariant.
Each chunk is decoded in isolation (`TextDecoder.decode` without
streaming mode, `split`/classify per chunk, nothing buffered), so
splitting the byte stream `"hello__DONE__"` into the two chunks
`"hello__DO"` and `"NE__"` loses the marker: the code then emits
`AgentOutput "hello__DO"`, `AgentOutput "NE__"` instead of the one-chunk
result `AgentOutput "hello"`, `TaskDone`. -/
theorem chunk_boundary_failure :
    (decodeChunks ⟨true, false⟩ ["hello__DO".data, "NE__".data]).1
      = [Ev.agent "hello__DO".data, Ev.agent "NE__".data]
  ∧ (decodeChunks ⟨true, false⟩ ["hello__DONE__".data]).1
      = [Ev.agent "hello".data, Ev.done doneText]
  ∧ "hello__DO".data ++ "NE__".data = "hello__DONE__".data
  ∧ (decodeChunks ⟨true, false⟩ ["hello__DO".data, "NE__".data]).1
      ≠ (decodeChunks ⟨true, false⟩ ["hello__DONE__".data]).1 := by
  refine ⟨by decide, by decide, by decide, by decide⟩

/-- C3 counterexample: the spec's scenario stream does not decode to the
six claimed events; the `[error]`-tagged segment is classified as one
whole, so no separate `SystemMessage "restarting"` is ever produced. -/
theorem scenario_decode_refutes :
    (decodeChunk ⟨false, false⟩
        "hello__DONE__[error] boom\n[daemon] restarting__DONE__world".data).1
      ≠ [Ev.agent "hello".data, Ev.done doneText, Ev.error "boom".data,
         Ev.system "restarting".data, Ev.done doneText,
         Ev.agent "world".data] := by
  decide

/-- C3 (amended): the scenario chunk decodes, from any decoder state, to
exactly `AgentOutput "hello"`, `TaskDone`,
`ErrorMessage "boom\n[daemon] restarting"`, `TaskDone`,
`AgentOutput "world"` — segments are classified whole (never re-split on
newlines), so the `[daemon]` line stays inside the error text. -/
theorem scenario_decode (st : DecState) :
    (decodeChunk st
        "hello__DONE__[error] boom\n[daemon] restarting__DONE__world".data).1
      = [Ev.agent "hello".data, Ev.done doneText,
         Ev.error "boom\n[daemon] restarting".data,
         Ev.done doneText, Ev.agent "world".data] := by
  rcases st with ⟨r, t⟩
  cases r <;> cases t <;> decide

/-- C4: decoding a chunk emits exactly one `TaskDone` per occurrence of
the completion marker (and over a chunked stream, one per occurrence
within each delivered chunk); the event list is exactly the per-segment
event lists interleaved with single `TaskDone`s (segment, TaskDone,
segment, ...); segments contribute no `TaskDone` of their own; and an
empty or whitespace-only segment contributes no event at all while its
adjacent markers still produce `TaskDone`. -/
theorem taskdone_count_order (st : DecState) (s : Str) (cs : List Str) :
    countDone (decodeChunk st s).1 = countOcc marker s
  ∧ (decodeChunk st s).1 = interDone (segLists st.isReady (splitStr marker s))
  ∧ ((segLists st.isReady (splitStr marker s)).all
        fun l => countDone l == 0) = true
  ∧ countDone (decodeChunks st cs).1 = (cs.map fun c => countOcc marker c).sum
  ∧ (∀ p : Str, trim p = [] → (processSegment st p).2 = []) := by
  refine ⟨countDone_decodeChunk st s,
          processParts_shape _ st (splitStr_ne_nil marker s),
          segLists_countDone _ st.isReady,
          countDone_decodeChunks cs st, ?_⟩
  intro p hp
  have hc : containsSub sentinel ([] : Str) = false := by decide
  rcases st with ⟨r, t⟩
  cases r <;> simp [processSegment, hp, hc]

/-- C4 witness: on a concrete stream with two markers the `TaskDone`
count matches, and a whitespace-only segment emits nothing. -/
theorem taskdone_count_order_witness :
    countDone (decodeChunk ⟨false, false⟩ "a__DONE____DONE__b".data).1
      = countOcc marker "a__DONE____DONE__b".data
  ∧ (processSegment ⟨false, false⟩ "  ".data).2 = [] :=
  ⟨(taskdone_count_order ⟨false, false⟩ "a__DONE____DONE__b".data []).1,
   (taskdone_count_order ⟨false, false⟩ "a__DONE____DONE__b".data
      []).2.2.2.2 "  ".data (by decide)⟩

/-- C5 counterexample: in the server's decoder the segment that triggers
the readiness latch is NOT consumed silently — it is also broadcast as a
regular `output` event. -/
theorem server_readiness_emits_refutes :
    serverSegment false "Browser started".data
      = (true, [Msg.status readyStr, Msg.output "Browser started".data])
  ∧ Msg.output "Browser started".data
      ∈ (serverSegment false "Browser started".data).2 := by
  refine ⟨by decide, by decide⟩

/-- C5 (amended): the readiness flag is latched — monotone, so it
transitions false→true at most once over any stream, and it flips exactly
at the first segment containing the sentinel.  In the hook decoder the
triggering segment is consumed without any event; in the server decoder
readiness equally latches at most once, but the triggering segment is
additionally emitted as a regular `output` message. -/
theorem readiness_latch (st : DecState) (p s : Str) (cs : List Str)
    (rb : Bool) (txt : Str) :
    (processSegment st p).1.isReady
        = (st.isReady || containsSub sentinel (trim p))
  ∧ (st.isReady = false → containsSub sentinel (trim p) = true →
        processSegment st p = ({ st with isReady := true }, []))
  ∧ (decodeChunk st s).2.isReady
        = (st.isReady || (splitStr marker s).any
            fun q => containsSub sentinel (trim q))
  ∧ (st.isReady = true → (decodeChunks st cs).2.isReady = true)
  ∧ (serverSegment rb txt).1 = (rb || containsSub sentinel txt)
  ∧ (rb = false → containsSub sentinel txt = true →
        (serverSegment rb txt).2
          = Msg.status readyStr
              :: (if trim txt = [] then [] else [Msg.output txt])) := by
  refine ⟨?_, ?_, decodeChunk_isReady st s, decodeChunks_mono cs st,
          serverSegment_fst rb txt, ?_⟩
  · rcases st with ⟨r, t⟩
    rw [processSegment_isReady]
  · intro h1 h2
    rcases st with ⟨r, t⟩
    simp_all [processSegment]
  · intro h1 h2
    simp_all [serverSegment]

/-- C5 witness: from the not-ready state, a sentinel segment latches
readiness and emits nothing, and once latched the flag survives any later
chunk. -/
theorem readiness_latch_witness :
    processSegment ⟨false, false⟩ "Browser started".data = (⟨true, false⟩, [])
  ∧ (decodeChunks ⟨true, false⟩ ["Browser started".data]).2.isReady = true := by
  refine ⟨?_, ?_⟩
  · exact (readiness_latch ⟨false, false⟩ "Browser started".data [] [] false
      []).2.1 rfl (by decide)
  · exact (readiness_latch ⟨true, false⟩ [] [] ["Browser started".data] false
      []).2.2.2.1 rfl

/-- C6 counterexample: publishing to a subscriber set holding one sink
whose socket is closed delivers nothing to it but does NOT remove it —
the subscriber set after `broadcast` still contains the closed sink. -/
theorem broadcast_no_removal_refutes :
    (broadcast ⟨false, false, [⟨0, ReadyState.closed⟩]⟩ Msg.done).1.clients
      = [⟨0, ReadyState.closed⟩]
  ∧ (broadcast ⟨false, false, [⟨0, ReadyState.closed⟩]⟩ Msg.done).2 = [] := by
  refine ⟨rfl, rfl⟩

/-- C6 (amended): `broadcast` delivers the event to every
currently-subscribed sink whose socket is OPEN, in registration order; a
sink in any other `readyState` is skipped for that publish but remains in
the subscriber set (removal happens only in the `close` handler);
`broadcast` is a total function (never throws) and leaves the subscriber
set unchanged; a sink removed by the close handler before a publish
receives nothing from that publish. -/
theorem broadcast_delivery (st : ServerState) (cid : Nat) (m : Msg) :
    (broadcast st m).1 = st
  ∧ (broadcast st m).2
      = (st.clients.filter fun c => c.readyState == ReadyState.rsOpen).map
          (fun c => (c.id, m))
  ∧ ((broadcast (wsClose st cid) m).2.all fun d => d.1 != cid) = true := by
  refine ⟨rfl, rfl, ?_⟩
  simp only [broadcast, wsClose]
  exact recipients_all_ne st.clients cid m

/-- C7 counterexample: the server's `startDaemon`, invoked while a child
process already exists, performs no teardown and spawns nothing (it
early-returns), and even when it does spawn, its command line carries no
provider/model arguments — refuting "every invocation of start first
performs the stop teardown before spawning" and "the child is always
launched with the provider and model identifiers". -/
theorem server_start_refutes :
    startDaemonServer ⟨true, true, []⟩ = (⟨true, true, []⟩, [])
  ∧ (startDaemonServer ⟨false, false, []⟩).2 = [Act.spawn serverSpawn]
  ∧ serverSpawn.cmd
      = ["uv".data, "run".data, "python".data, "-u".data,
         "python/daemon.py".data] := by
  refine ⟨rfl, rfl, rfl⟩

/-- C7 (amended): the hook's `startDaemon` always performs the `stopDaemon`
teardown first (closing the old child's stdin when a daemon exists and
clearing the reference) and only then spawns, with the provider and model
identifiers as the two trailing positional arguments and all three stdio
streams piped; the server's `startDaemon`, in contrast, is a no-op when a
process already exists and spawns without provider/model arguments
(stdio equally piped). -/
theorem start_teardown_spawn (st : HookState) (provider model : Str)
    (sst : ServerState) :
    (startDaemon st provider model).2
      = (stopDaemon st).2 ++ [Act.syncEnv, Act.spawn (hookSpawn provider model)]
  ∧ (st.hasDaemon = true → (stopDaemon st).2 = [Act.closeStdin, Act.clearRef])
  ∧ (stopDaemon st).1 = ⟨false, false, st.isTaskRunning⟩
  ∧ (hookSpawn provider model).cmd
      = ["uv".data, "run".data, "python".data, "-u".data,
         "python/daemon.py".data] ++ [provider, model]
  ∧ (hookSpawn provider model).stdinPipe = true
  ∧ (hookSpawn provider model).stdoutPipe = true
  ∧ (hookSpawn provider model).stderrPipe = true
  ∧ (startDaemon st provider model).1 = ⟨true, false, st.isTaskRunning⟩
  ∧ (sst.hasProcess = true → startDaemonServer sst = (sst, []))
  ∧ (sst.hasProcess = false →
        startDaemonServer sst
          = ({ sst with hasProcess := true }, [Act.spawn serverSpawn]))
  ∧ serverSpawn.stdinPipe = true ∧ serverSpawn.stdoutPipe = true
  ∧ serverSpawn.stderrPipe = true := by
  refine ⟨rfl, ?_, rfl, rfl, rfl, rfl, rfl, rfl, ?_, ?_, rfl, rfl, rfl⟩
  · intro h
    simp [stopDaemon, h]
  · intro h
    simp [startDaemonServer, h]
  · intro h
    simp [startDaemonServer, h]

/-- C7 witness: with a live daemon the hook teardown closes stdin and
clears the reference, and the server start is a no-op when a process
exists. -/
theorem start_teardown_spawn_witness :
    (stopDaemon ⟨true, true, false⟩).2 = [Act.closeStdin, Act.clearRef]
  ∧ startDaemonServer ⟨true, true, []⟩ = (⟨true, true, []⟩, []) := by
  obtain ⟨-, h2, -, -, -, -, -, -, h9, -⟩ :=
    start_teardown_spawn ⟨true, true, false⟩ [] [] ⟨true, true, []⟩
  exact ⟨h2 rfl, h9 rfl⟩

/-- C8: stderr chunks are newline-split and trimmed; the noise patterns
drop the line `"   INFO  "`; `"Traceback (most recent call last):"`
survives and is surfaced as an `ErrorMessage`; every surviving non-empty
line becomes `ErrorMessage` exactly when the case-insensitive
error/exception/traceback heuristic matches, else `AgentOutput`; and the
stderr path never emits a `done` event (nor does it touch the readiness
state, which it cannot even reference). -/
theorem stderr_classification (line chunk : Str) :
    processStderrLine "   INFO  ".data = []
  ∧ processStderrLine "Traceback (most recent call last):".data
      = [Ev.error "Traceback (most recent call last):".data]
  ∧ (isStderrNoise (trim line) = true → processStderrLine line = [])
  ∧ (trim line ≠ [] → isStderrNoise (trim line) = false →
        processStderrLine line
          = [(if isErrorLine (trim line) then Ev.error else Ev.agent)
               (trim line)])
  ∧ countDone (processStderrChunk chunk) = 0 := by
  refine ⟨by decide, by decide, ?_, ?_, countDone_processStderrChunk chunk⟩
  · intro h
    simp only [processStderrLine]
    split_ifs <;> simp_all
  · intro h1 h2
    simp only [processStderrLine]
    split_ifs <;> simp_all

/-- C8 witness: a concrete surviving line containing "error" is
classified as an `ErrorMessage`. -/
theorem stderr_classification_witness :
    processStderrLine "boom error".data = [Ev.error "boom error".data] := by
  have h := (stderr_classification "boom error".data []).2.2.2.1
    (by decide) (by decide)
  rw [h]
  decide

/-- C9: once the readiness flag is latched, a later stdout segment that
contains the sentinel substring but carries no recognized tag prefix is
emitted as an ordinary `AgentOutput` of its trimmed text — it is neither
suppressed nor does it change the decoder state. -/
theorem sentinel_after_ready_emitted (st : DecState) (p : Str)
    (h1 : st.isReady = true)
    (h2 : containsSub sentinel (trim p) = true)
    (h3 : errorTag.isPrefixOf (trim p) = false)
    (h4 : daemonTag.isPrefixOf (trim p) = false)
    (h5 : systemTag.isPrefixOf (trim p) = false) :
    processSegment st p = (st, [Ev.agent (trim p)]) := by
  have h6 : trim p ≠ [] := by
    intro h
    rw [h] at h2
    exact absurd h2 (by decide)
  rcases st with ⟨r, t⟩
  simp_all [processSegment]

/-- C9 witness: after readiness, a second segment containing the sentinel
is emitted verbatim as agent output. -/
theorem sentinel_after_ready_emitted_witness :
    processSegment ⟨true, false⟩ "Browser started again".data
      = (⟨true, false⟩, [Ev.agent "Browser started again".data]) := by
  have h := sentinel_after_ready_emitted ⟨true, false⟩
    "Browser started again".data rfl (by decide) (by decide) (by decide)
    (by decide)
  rw [h]
  decide

/-- C10: the `/health` endpoint's `daemon` field is always exactly one of
`"ready"` (readiness latched) or `"starting"` (otherwise) — never
`"disconnected"`, even with no child process — while the WebSocket `open`
handler distinguishes `"ready"`, `"starting"` and `"disconnected"`. -/
theorem health_two_values (st : ServerState) :
    (healthDaemonField st = readyStr ∨ healthDaemonField st = startingStr)
  ∧ (healthDaemonField st = disconnectedStr → False)
  ∧ (st.isReady = true →
        healthDaemonField st = readyStr ∧ wsOpenStatus st = readyStr)
  ∧ (st.isReady = false → st.hasProcess = true →
        healthDaemonField st = startingStr ∧ wsOpenStatus st = startingStr)
  ∧ (st.isReady = false → st.hasProcess = false →
        healthDaemonField st = startingStr
          ∧ wsOpenStatus st = disconnectedStr) := by
  rcases st with ⟨hp, rdy, cl⟩
  cases rdy <;> cases hp <;>
    refine ⟨?_, ?_, ?_, ?_, ?_⟩ <;>
      simp [healthDaemonField, wsOpenStatus] <;> decide

/-- C10 witness: with no child process and readiness false, `/health`
reports `"starting"` while the WebSocket open handler reports
`"disconnected"`. -/
theorem health_two_values_witness :
    healthDaemonField ⟨false, false, []⟩ = startingStr
  ∧ wsOpenStatus ⟨false, false, []⟩ = disconnectedStr :=
  (health_two_values ⟨false, false, []⟩).2.2.2.2 rfl rfl

end Astron
